import Mathlib

/-!
Shallow embedding of the Warbler flask application (`src/app.py`).

The database is a record of lists of rows; a request handler is a pure
function from the database, the session and the request data to a
`HandlerResult` holding the post-request (committed) database, the
post-request session, the flashed messages and the response.

`models.py` and `forms.py` are not part of `src/`; the pieces of them a
handler relies on (password hashing and `User.authenticate`, the unique
username/email constraints behind `IntegrityError`, the default image
URLs, the direction of the `following` relation, CSRF validation of
`FlaskForm.validate_on_submit`) are modelled from the spec and from the
model tests, and are marked `Modelled from the spec:` below.

CSRF validity is an abstract Boolean of the request (`csrf_ok`);
`validate_on_submit` of a form with fields is modelled as
`csrf_ok && fields_ok`, since an invalid CSRF token makes the whole form
invalid.
-/

namespace Warbler

/-- Row of the `users` table.  The stored `password` is the bcrypt hash. -/
structure UserRec where
  id : Nat
  username : String
  password : String
  email : String
  bio : String
  image_url : String
  header_image_url : String
deriving DecidableEq, Repr

/-- Row of the `messages` table.  Larger `timestamp` means more recent. -/
structure MessageRec where
  id : Nat
  text : String
  timestamp : Nat
  user_id : Nat
deriving DecidableEq, Repr

/-- Database state: users, messages, the `follows` association rows
`(follower_id, followed_id)` and the `likes` association rows
`(user_id, message_id)`. -/
structure DB where
  users : List UserRec
  messages : List MessageRec
  follows : List (Nat × Nat)
  likes : List (Nat × Nat)
deriving DecidableEq, Repr

/-- Outcome of a handler: a redirect, a rendered template, a 401 from
`Unauthorized` (raised or returned), a 404 from `get_or_404`, a 500 from
an uncaught `ValueError` (`list.remove` on a missing element), or a 500
from an uncaught `IntegrityError`. -/
inductive Response where
  | redirect (loc : String)
  | render (tmpl : String)
  | unauthorized
  | notFound
  | valueError
  | integrityError
deriving DecidableEq, Repr

/-- Result of one request: committed database, session (the value of the
`curr_user` session key, if present), flashed messages, response.
Uncommitted in-request mutations are rolled back when the session is
removed at request teardown, so they do not appear in `db`. -/
structure HandlerResult where
  db : DB
  sess : Option Nat
  flashes : List String
  response : Response
deriving DecidableEq, Repr

/-- Modelled from the spec: `models.py` is not under `src/`; bcrypt salted
hashing is abstracted as an injective tagging function, which preserves
exactly what the claims use: a stored hash matches the password it was
made from and no other. -/
def hashPw (pw : String) : String := "bcrypt:" ++ pw

/-- Modelled from the spec: default profile image URL
(`DEFAULT_IMAGE_URL` lives in the missing `models.py`). -/
def DEFAULT_IMAGE_URL : String := "/static/images/default-pic.png"

/-- Modelled from the spec: default header image URL
(`DEFAULT_HEADER_IMAGE_URL` lives in the missing `models.py`). -/
def DEFAULT_HEADER_IMAGE_URL : String := "/static/images/warbler-hero.jpg"

/-- Lookup of `User.query.get(uid)`. -/
def findUser (db : DB) (uid : Nat) : Option UserRec :=
  db.users.find? (fun v => v.id == uid)

/-- Value of `g.user` set by the `add_user_to_g` before-request hook:
the user of the `curr_user` session key, or `none`. -/
def gUser (db : DB) (sess : Option Nat) : Option UserRec :=
  match sess with
  | none => none
  | some uid => findUser db uid

/-- Lookup of `Message.query.get(mid)` (and `get_or_404`). -/
def getMessage (db : DB) (mid : Nat) : Option MessageRec :=
  db.messages.find? (fun m => m.id == mid)

/-- Modelled from the spec: `User.authenticate` of the missing `models.py`
finds the user by username and checks the password against the stored
hash, returning the user on success and a falsy value on failure. -/
def authenticate (users : List UserRec) (username pw : String) : Option UserRec :=
  match users.find? (fun v => v.username == username) with
  | some v => if v.password == hashPw pw then some v else none
  | none => none

/-- Removal of the first occurrence, the behaviour of Python
`list.remove` when the element is present. -/
def removeFirst {α : Type} [DecidableEq α] : List α → α → List α
  | [], _ => []
  | x :: xs, y => if x = y then xs else x :: removeFirst xs y

/-- Modelled from the spec: the user row built by `User.signup` of the
missing `models.py` (hash the password, default bio and header image). -/
def mkSignupUser (nid : Nat) (username pw email image : String) : UserRec :=
  { id := nid, username := username, password := hashPw pw, email := email,
    bio := "", image_url := image, header_image_url := DEFAULT_HEADER_IMAGE_URL }

/-- Handler of `GET/POST /signup` (`app.py:65`).  `do_logout()` runs
first, unconditionally.  On a valid form the new user is inserted; a
duplicate username or email raises `IntegrityError` at commit
(uniqueness is modelled from the spec: unique username, unique email),
which the handler catches, flashing `Username already taken` and
re-presenting the form with no new row committed.  On success
`do_login` stores the fresh id in the session and the handler redirects
to `/`. -/
def signup (db : DB) (sess : Option Nat) (csrf_ok fields_ok : Bool)
    (fUsername fPw fEmail fImage : String) (nextId : Nat) : HandlerResult :=
  let _ := sess
  if csrf_ok && fields_ok then
    if db.users.any (fun v => v.username == fUsername || v.email == fEmail) then
      { db := db, sess := none, flashes := ["Username already taken"],
        response := .render "users/signup.html" }
    else
      let image := if fImage == "" then DEFAULT_IMAGE_URL else fImage
      { db := { db with users := db.users ++ [mkSignupUser nextId fUsername fPw fEmail image] },
        sess := some nextId, flashes := [], response := .redirect "/" }
  else
    { db := db, sess := none, flashes := [], response := .render "users/signup.html" }

/-- Handler of `POST /logout` (`app.py:125`): on a valid CSRF form the
session key is removed and a flash is shown; otherwise `Unauthorized`
is raised. -/
def logout (db : DB) (sess : Option Nat) (csrf_ok : Bool) : HandlerResult :=
  if csrf_ok then
    { db := db, sess := none, flashes := ["Successfully logged out."],
      response := .redirect "/" }
  else
    { db := db, sess := sess, flashes := [], response := .unauthorized }

/-- Handler of `POST /users/follow/<follow_id>` (`app.py:221`): requires a
logged-in user, then a valid CSRF form, then `get_or_404` of the target,
and appends a follow row.  Nothing blocks following oneself. -/
def start_following (db : DB) (sess : Option Nat) (csrf_ok : Bool)
    (follow_id : Nat) : HandlerResult :=
  match gUser db sess with
  | none =>
    { db := db, sess := sess, flashes := ["Access unauthorized."],
      response := .redirect "/" }
  | some u =>
    if csrf_ok then
      match findUser db follow_id with
      | none => { db := db, sess := sess, flashes := [], response := .notFound }
      | some _ =>
        { db := { db with follows := db.follows ++ [(u.id, follow_id)] },
          sess := sess, flashes := [],
          response := .redirect ("/users/" ++ toString u.id ++ "/following") }
    else
      { db := db, sess := sess, flashes := [], response := .unauthorized }

/-- Handler of `POST /users/stop-following/<follow_id>` (`app.py:244`):
`get_or_404` of the target runs first, then the combined check
`not g.user or followed_user not in g.user.following`, then the CSRF
form, then removal of the follow row. -/
def stop_following (db : DB) (sess : Option Nat) (csrf_ok : Bool)
    (follow_id : Nat) : HandlerResult :=
  match findUser db follow_id with
  | none => { db := db, sess := sess, flashes := [], response := .notFound }
  | some _ =>
    match gUser db sess with
    | none =>
      { db := db, sess := sess, flashes := ["Access unauthorized."],
        response := .redirect "/" }
    | some u =>
      if (u.id, follow_id) ∈ db.follows then
        if csrf_ok then
          { db := { db with follows := removeFirst db.follows (u.id, follow_id) },
            sess := sess, flashes := [],
            response := .redirect ("/users/" ++ toString u.id ++ "/following") }
        else
          { db := db, sess := sess, flashes := [], response := .unauthorized }
      else
        { db := db, sess := sess, flashes := ["Access unauthorized."],
          response := .redirect "/" }

/-- Working list of users after the handler statement
`user.username = form.username.data` of `app.py:284`, which mutates the
ORM object before the password check. -/
def pendingUsers (db : DB) (uid : Nat) (newName : String) : List UserRec :=
  db.users.map (fun v => if v.id == uid then { v with username := newName } else v)

/-- Handler of `GET/POST /users/profile` (`app.py:268`).  On a valid form
the handler assigns `user.username = form.username.data` BEFORE calling
`User.authenticate`; SQLAlchemy autoflush makes the authenticate query
see the pending username (so authentication runs against `pendingUsers`),
and flushing a username that duplicates another user's raises an
uncaught `IntegrityError` (500).  Only the successful branch commits;
every other branch leaves the committed database unchanged, the pending
mutation being rolled back at request teardown.  (The analogous email
uniqueness conflict on the successful branch is not modelled; no claim
depends on the successful branch's email.)  An invalid form and a failed
authentication both fall through to `flash("Invalid password")` and the
re-rendered edit form. -/
def handle_user_profile_edit (db : DB) (sess : Option Nat)
    (csrf_ok fields_ok : Bool)
    (fUsername fEmail fBio fImage fHeader pw : String) : HandlerResult :=
  match gUser db sess with
  | none =>
    { db := db, sess := sess, flashes := ["Access unauthorized."],
      response := .redirect "/" }
  | some user =>
    if csrf_ok && fields_ok then
      if db.users.any (fun v => v.id != user.id && v.username == fUsername) then
        { db := db, sess := sess, flashes := [], response := .integrityError }
      else
        match authenticate (pendingUsers db user.id fUsername) fUsername pw with
        | some _ =>
          let users2 := (pendingUsers db user.id fUsername).map (fun v =>
            if v.id == user.id then
              { v with
                email := fEmail
                bio := fBio
                image_url := if fImage == "" then DEFAULT_IMAGE_URL else fImage
                header_image_url :=
                  if fHeader == "" then DEFAULT_HEADER_IMAGE_URL else fHeader }
            else v)
          { db := { db with users := users2 }, sess := sess, flashes := [],
            response := .redirect ("/users/" ++ toString user.id) }
        | none =>
          { db := db, sess := sess, flashes := ["Invalid password"],
            response := .render "users/edit.html" }
    else
      { db := db, sess := sess, flashes := ["Invalid password"],
        response := .render "users/edit.html" }

/-- Handler of `POST /users/delete` (`app.py:302`): requires a logged-in
user; on a valid CSRF form it logs out, deletes each of the user's
messages, deletes the user, commits and redirects to `/signup`;
otherwise `Unauthorized` is raised. -/
def delete_user (db : DB) (sess : Option Nat) (csrf_ok : Bool) : HandlerResult :=
  match gUser db sess with
  | none =>
    { db := db, sess := sess, flashes := ["Access unauthorized."],
      response := .redirect "/" }
  | some u =>
    if csrf_ok then
      { db := { db with
                  users := db.users.filter (fun v => v.id != u.id)
                  messages := db.messages.filter (fun m => m.user_id != u.id) },
        sess := none, flashes := ["We'll miss you!"],
        response := .redirect "/signup" }
    else
      { db := db, sess := sess, flashes := [], response := .unauthorized }

/-- Handler of `GET/POST /messages/new` (`app.py:337`): requires a
logged-in user; on a valid `MessageForm` the message is appended to the
user's messages and committed, else the form is re-presented.  `nextId`
is the database-generated id and `now` the default timestamp. -/
def add_message (db : DB) (sess : Option Nat) (csrf_ok fields_ok : Bool)
    (text : String) (nextId now : Nat) : HandlerResult :=
  match gUser db sess with
  | none =>
    { db := db, sess := sess, flashes := ["Access unauthorized."],
      response := .redirect "/" }
  | some u =>
    if csrf_ok && fields_ok then
      { db := { db with messages := db.messages ++ [⟨nextId, text, now, u.id⟩] },
        sess := sess, flashes := [],
        response := .redirect ("/users/" ++ toString u.id) }
    else
      { db := db, sess := sess, flashes := [], response := .render "messages/create.html" }

/-- Handler of `POST /messages/<message_id>/delete` (`app.py:377`): it
checks only that some user is logged in, then `get_or_404`, then deletes
the message and commits.  Faithfully to the source, it never consults
the CSRF form and never compares `msg.user_id` with `g.user.id`. -/
def delete_message (db : DB) (sess : Option Nat) (message_id : Nat) : HandlerResult :=
  match gUser db sess with
  | none =>
    { db := db, sess := sess, flashes := ["Access unauthorized."],
      response := .redirect "/" }
  | some u =>
    match getMessage db message_id with
    | none => { db := db, sess := sess, flashes := [], response := .notFound }
    | some _ =>
      { db := { db with messages := db.messages.filter (fun m => m.id != message_id) },
        sess := sess, flashes := [],
        response := .redirect ("/users/" ++ toString u.id) }

/-- Handler of `POST /users/like/<message_id>` (`app.py:400`): requires a
logged-in user, then a valid CSRF form, then `get_or_404`; a message of
another user is appended to `liked_messages` and committed, while the
user's own message only flashes a warning and redirects, the likes
unchanged. -/
def like (db : DB) (sess : Option Nat) (csrf_ok : Bool)
    (message_id : Nat) (came_from : String) : HandlerResult :=
  match gUser db sess with
  | none =>
    { db := db, sess := sess, flashes := ["Access unauthorized."],
      response := .redirect "/" }
  | some u =>
    if csrf_ok then
      match getMessage db message_id with
      | none => { db := db, sess := sess, flashes := [], response := .notFound }
      | some m =>
        if m.user_id != u.id then
          { db := { db with likes := db.likes ++ [(u.id, message_id)] },
            sess := sess, flashes := [], response := .redirect came_from }
        else
          { db := db, sess := sess,
            flashes := ["High-fiving yourself is not a good look."],
            response := .redirect came_from }
    else
      { db := db, sess := sess, flashes := [], response := .unauthorized }

/-- Handler of `POST /users/remove-like/<message_id>` (`app.py:429`):
requires a logged-in user, then a valid CSRF form, then `get_or_404`;
it then calls `g.user.liked_messages.remove(message)` with no membership
check, so a message the user never liked raises an uncaught
`ValueError`. -/
def remove_like (db : DB) (sess : Option Nat) (csrf_ok : Bool)
    (message_id : Nat) (came_from : String) : HandlerResult :=
  match gUser db sess with
  | none =>
    { db := db, sess := sess, flashes := ["Access unauthorized."],
      response := .redirect "/" }
  | some u =>
    if csrf_ok then
      match getMessage db message_id with
      | none => { db := db, sess := sess, flashes := [], response := .notFound }
      | some _ =>
        if (u.id, message_id) ∈ db.likes then
          { db := { db with likes := removeFirst db.likes (u.id, message_id) },
            sess := sess, flashes := [], response := .redirect came_from }
        else
          { db := db, sess := sess, flashes := [], response := .valueError }
    else
      { db := db, sess := sess, flashes := [], response := .unauthorized }

/-- Ordering used by the home feed: newer (larger timestamp) first. -/
def tsGE (a b : MessageRec) : Prop := b.timestamp ≤ a.timestamp

instance : DecidableRel tsGE := fun a b => Nat.decLe b.timestamp a.timestamp

instance : IsTotal MessageRec tsGE := ⟨fun a b => Nat.le_total b.timestamp a.timestamp⟩

instance : IsTrans MessageRec tsGE := ⟨fun _ _ _ h1 h2 => Nat.le_trans h2 h1⟩

/-- Ids followed by `uid`: the `f.id for f in g.user.following`
comprehension of `app.py:481` (the direction of `following`, follower to
followed, is modelled from the spec). -/
def following_ids (db : DB) (uid : Nat) : List Nat :=
  (db.follows.filter (fun p => p.1 == uid)).map (fun p => p.2)

/-- Rows selected by `Message.query.filter(Message.user_id.in_(valid_ids))`
of `app.py:487`, where `valid_ids` is the following ids plus the user's
own id. -/
def feed_pool (db : DB) (uid : Nat) : List MessageRec :=
  db.messages.filter (fun m => (following_ids db uid ++ [uid]).contains m.user_id)

/-- Messages shown by `GET /` (`app.py:472`): nothing for an anonymous
visitor; for a logged-in user the messages whose author is the user or
someone the user follows, ordered by timestamp descending, limited to
100 (`ORDER BY ... DESC LIMIT 100` realised as sort-then-take). -/
def homepage_messages (db : DB) (sess : Option Nat) : List MessageRec :=
  match gUser db sess with
  | none => []
  | some u => ((feed_pool db u.id).insertionSort tsGE).take 100

/-! ### General lemmas about the embedding -/

theorem mem_following_ids {db : DB} {uid x : Nat} :
    x ∈ following_ids db uid ↔ (uid, x) ∈ db.follows := by
  simp only [following_ids, List.mem_map, List.mem_filter, beq_iff_eq]
  constructor
  · rintro ⟨p, ⟨hp, h1⟩, h2⟩
    obtain ⟨a, b⟩ := p
    simp only at h1 h2
    subst h1; subst h2
    exact hp
  · intro h
    exact ⟨(uid, x), ⟨h, rfl⟩, rfl⟩

theorem mem_feed_pool {db : DB} {uid : Nat} {m : MessageRec} :
    m ∈ feed_pool db uid ↔
      m ∈ db.messages ∧ (m.user_id = uid ∨ (uid, m.user_id) ∈ db.follows) := by
  simp only [feed_pool, List.mem_filter, List.elem_iff, List.mem_append,
    List.mem_singleton, mem_following_ids]
  tauto

/-! ### Claims -/

/-- Database of the failing input of claim C1: `alice` (id 1) owns
message 10; `bob` (id 2) is the logged-in requester. -/
def c1db : DB :=
  { users := [⟨1, "alice", hashPw "pwA", "alice@x.com", "", "", ""⟩,
              ⟨2, "bob", hashPw "pwB", "bob@x.com", "", "", ""⟩],
    messages := [⟨10, "hello", 5, 1⟩],
    follows := [], likes := [] }

/-- C1: the delete-message handler does NOT enforce ownership: with
`bob` (id 2) logged in, `POST /messages/10/delete` deletes message 10
even though `alice` (id 1) owns it, and redirects to bob's page.  This
contradicts the handler's own docstring (`app.py:381`: check that this
message was written by the current user) and the spec sentence the claim
cites, so the claim is recorded as a code bug and this theorem evaluates
the code at the failing input. -/
theorem delete_message_nonowner_deletes :
    (delete_message c1db (some 2) 10).db.messages = [] ∧
    (delete_message c1db (some 2) 10).response = .redirect "/users/2" := by
  constructor <;> rfl

/-- Database of the counterexample of claim C2: `ann` (id 1) owns
message 5 and is logged in. -/
def c2db : DB :=
  { users := [⟨1, "ann", hashPw "pw", "ann@x.com", "", "", ""⟩],
    messages := [⟨5, "hi", 1, 1⟩],
    follows := [], likes := [] }

/-- C2 counterexample: the delete-message handler never consults the
CSRF form (its embedding has no CSRF input at all, faithfully to
`app.py:377`), yet it mutates state: a request carrying no valid CSRF
token still deletes message 5. -/
theorem csrf_counterexample_delete_message :
    c2db.messages ≠ [] ∧ (delete_message c2db (some 1) 5).db.messages = [] := by
  constructor
  · intro h
    simp [c2db] at h
  · rfl

/-- Database of claim C8's scenario: a single user `ann` (id 1),
logged in. -/
def c8db : DB :=
  { users := [⟨1, "ann", hashPw "pw", "ann@x.com", "", "", ""⟩],
    follows := [], messages := [], likes := [] }

/-- C8: self-follow is not blocked: user 1, logged in and with a valid
CSRF token, follows their own id 1; the handler appends the `(1, 1)`
follow row and redirects, so the user is added to their own following
set. -/
theorem self_follow_allowed :
    start_following c8db (some 1) true 1 =
      { db := { c8db with follows := [(1, 1)] }, sess := some 1,
        flashes := [], response := .redirect "/users/1/following" } := by
  rfl

/-- C5: a user cannot like their own message: with a valid CSRF token,
liking a message whose `user_id` is the logged-in user's id leaves the
database (in particular the likes relation) unchanged, flashes the
warning, and redirects back. -/
theorem self_like_noop (db : DB) (sess : Option Nat) (u : UserRec)
    (m : MessageRec) (mid : Nat) (cf : String)
    (hu : gUser db sess = some u) (hm : getMessage db mid = some m)
    (hown : m.user_id = u.id) :
    like db sess true mid cf =
      { db := db, sess := sess,
        flashes := ["High-fiving yourself is not a good look."],
        response := .redirect cf } := by
  simp [like, hu, hm, hown]

/-- Database of the witness of claim C5: `ann` (id 1) owns message 7. -/
def c5db : DB :=
  { users := [⟨1, "ann", hashPw "pw", "ann@x.com", "", "", ""⟩],
    messages := [⟨7, "mine", 3, 1⟩],
    follows := [], likes := [] }

theorem self_like_noop_witness :
    like c5db (some 1) true 7 "/home" =
      { db := c5db, sess := some 1,
        flashes := ["High-fiving yourself is not a good look."],
        response := .redirect "/home" } :=
  self_like_noop c5db (some 1) ⟨1, "ann", hashPw "pw", "ann@x.com", "", "", ""⟩
    ⟨7, "mine", 3, 1⟩ 7 "/home" (by decide) (by decide) (by decide)

/-- C9: the remove-like handler performs an unguarded
`liked_messages.remove`: for a logged-in user, a valid CSRF token and an
existing message the user has not liked, the handler reaches the removal
and its not-found branch, raising the uncaught `ValueError` with the
database unchanged. -/
theorem remove_like_unguarded (db : DB) (sess : Option Nat) (u : UserRec)
    (m : MessageRec) (mid : Nat) (cf : String)
    (hu : gUser db sess = some u) (hm : getMessage db mid = some m)
    (hnot : (u.id, mid) ∉ db.likes) :
    remove_like db sess true mid cf =
      { db := db, sess := sess, flashes := [], response := .valueError } := by
  simp [remove_like, hu, hm, hnot]

/-- Database of the witness of claim C9: `ann` (id 1) is logged in,
message 7 exists (owned by `bo`, id 2) and nobody has liked anything. -/
def c9db : DB :=
  { users := [⟨1, "ann", hashPw "pw", "ann@x.com", "", "", ""⟩,
              ⟨2, "bo", hashPw "pw2", "bo@x.com", "", "", ""⟩],
    messages := [⟨7, "post", 3, 2⟩],
    follows := [], likes := [] }

theorem remove_like_unguarded_witness :
    remove_like c9db (some 1) true 7 "/" =
      { db := c9db, sess := some 1, flashes := [], response := .valueError } :=
  remove_like_unguarded c9db (some 1) ⟨1, "ann", hashPw "pw", "ann@x.com", "", "", ""⟩
    ⟨7, "post", 3, 2⟩ 7 "/" (by decide) (by decide) (by decide)

/-- C4: profile edit re-authenticates before allowing any committed
change: on a valid form, if `User.authenticate` (run, faithfully to the
autoflush semantics, against the pending user list in which the handler
has already assigned the submitted username) fails, the committed
database is unchanged in every field — the pre-check username assignment
is uncommitted and rolled back at request teardown — and the edit form
is re-presented with the `Invalid password` flash.  The hypothesis
`hnodup` excludes the submitted username colliding with a different
user's, which would instead raise an integrity conflict at autoflush
(still leaving the record unchanged). -/
theorem profile_edit_reauth_ok (db : DB) (sess : Option Nat) (user : UserRec)
    (fU fE fB fI fH pw : String)
    (hu : gUser db sess = some user)
    (hnodup : db.users.any (fun v => v.id != user.id && v.username == fU) = false)
    (hauth : authenticate (pendingUsers db user.id fU) fU pw = none) :
    handle_user_profile_edit db sess true true fU fE fB fI fH pw =
      { db := db, sess := sess, flashes := ["Invalid password"],
        response := .render "users/edit.html" } := by
  simp [handle_user_profile_edit, hu, hnodup, hauth]

/-- Database of the witness of claim C4: `alice` (id 1), logged in. -/
def c4db : DB :=
  { users := [⟨1, "alice", hashPw "pwA", "alice@x.com", "", "", ""⟩],
    messages := [], follows := [], likes := [] }

theorem profile_edit_reauth_ok_witness :
    handle_user_profile_edit c4db (some 1) true true "alicia" "e@x.com" "bio" "" "" "wrong" =
      { db := c4db, sess := some 1, flashes := ["Invalid password"],
        response := .render "users/edit.html" } :=
  profile_edit_reauth_ok c4db (some 1) ⟨1, "alice", hashPw "pwA", "alice@x.com", "", "", ""⟩
    "alicia" "e@x.com" "bio" "" "" "wrong" (by decide) (by decide) (by decide)

/-- C6: a signup whose username and email clash with no existing user
commits exactly one new row and logs the new user in; a signup reusing
an existing username hits the integrity conflict, flashes
`Username already taken`, re-presents the signup form and commits no new
row. -/
theorem signup_unique_username (db : DB) (sess : Option Nat)
    (fU fP fE fI : String) (nid : Nat) :
    (db.users.any (fun v => v.username == fU || v.email == fE) = false →
      signup db sess true true fU fP fE fI nid =
        { db := { db with users := db.users ++
            [mkSignupUser nid fU fP fE (if fI == "" then DEFAULT_IMAGE_URL else fI)] },
          sess := some nid, flashes := [], response := .redirect "/" }) ∧
    (db.users.any (fun v => v.username == fU) = true →
      signup db sess true true fU fP fE fI nid =
        { db := db, sess := none, flashes := ["Username already taken"],
          response := .render "users/signup.html" }) := by
  constructor
  · intro h
    simp [signup, h]
  · intro h
    have h2 : db.users.any (fun v => v.username == fU || v.email == fE) = true := by
      rw [List.any_eq_true] at h ⊢
      obtain ⟨v, hv, hp⟩ := h
      exact ⟨v, hv, by simp [hp]⟩
    simp [signup, h2]

/-- Empty database of the witness of claim C6. -/
def c6db : DB := { users := [], messages := [], follows := [], likes := [] }

/-- Database of the witness of claim C6 after `alice` signed up. -/
def c6db2 : DB :=
  { users := [mkSignupUser 1 "alice" "pw1" "a@x.com" DEFAULT_IMAGE_URL],
    messages := [], follows := [], likes := [] }

theorem signup_unique_username_witness :
    (signup c6db none true true "alice" "pw1" "a@x.com" "" 1 =
      { db := { c6db with users := c6db.users ++
          [mkSignupUser 1 "alice" "pw1" "a@x.com"
            (if ("" : String) == "" then DEFAULT_IMAGE_URL else "")] },
        sess := some 1, flashes := [], response := .redirect "/" }) ∧
    (signup c6db2 none true true "bob" "pw2" "b@x.com" "" 2 =
      { db := { c6db2 with users := c6db2.users ++
          [mkSignupUser 2 "bob" "pw2" "b@x.com"
            (if ("" : String) == "" then DEFAULT_IMAGE_URL else "")] },
        sess := some 2, flashes := [], response := .redirect "/" }) ∧
    (signup c6db2 none true true "alice" "pw3" "c@x.com" "" 3 =
      { db := c6db2, sess := none, flashes := ["Username already taken"],
        response := .render "users/signup.html" }) :=
  ⟨(signup_unique_username c6db none "alice" "pw1" "a@x.com" "" 1).1 (by decide),
   (signup_unique_username c6db2 none "bob" "pw2" "b@x.com" "" 2).1 (by decide),
   (signup_unique_username c6db2 none "alice" "pw3" "c@x.com" "" 3).2 (by decide)⟩

/-- C7: a successful delete-user request (logged in, valid CSRF token)
logs the requester out, removes the user's row and every message the
user owns, keeps every other user and message, and redirects to the
signup page. -/
theorem delete_user_cascades (db : DB) (sess : Option Nat) (u : UserRec)
    (hu : gUser db sess = some u) :
    (delete_user db sess true).sess = none ∧
    (∀ v ∈ (delete_user db sess true).db.users, v.id ≠ u.id) ∧
    (∀ m ∈ (delete_user db sess true).db.messages, m.user_id ≠ u.id) ∧
    (∀ v ∈ db.users, v.id ≠ u.id → v ∈ (delete_user db sess true).db.users) ∧
    (∀ m ∈ db.messages, m.user_id ≠ u.id → m ∈ (delete_user db sess true).db.messages) ∧
    (delete_user db sess true).response = .redirect "/signup" := by
  simp [delete_user, hu, List.mem_filter]
  tauto

/-- Database of the witness of claim C7: `ann` (id 1, logged in) owns
message 5; `bo` (id 2) owns message 6. -/
def c7db : DB :=
  { users := [⟨1, "ann", hashPw "pw", "ann@x.com", "", "", ""⟩,
              ⟨2, "bo", hashPw "pw2", "bo@x.com", "", "", ""⟩],
    messages := [⟨5, "mine", 1, 1⟩, ⟨6, "keep", 2, 2⟩],
    follows := [], likes := [] }

theorem delete_user_cascades_witness :
    (delete_user c7db (some 1) true).sess = none ∧
    (⟨6, "keep", 2, 2⟩ : MessageRec) ∈ (delete_user c7db (some 1) true).db.messages :=
  ⟨(delete_user_cascades c7db (some 1) ⟨1, "ann", hashPw "pw", "ann@x.com", "", "", ""⟩
      (by decide)).1,
   (delete_user_cascades c7db (some 1) ⟨1, "ann", hashPw "pw", "ann@x.com", "", "", ""⟩
      (by decide)).2.2.2.2.1 ⟨6, "keep", 2, 2⟩ (by decide) (by decide)⟩

/-- C10: every signup request logs the current user out first: the
post-request session holds a user exactly when a new account was
successfully created (valid form, no username/email conflict), in which
case it holds the fresh id; on a GET or invalid form (`c && f = false`)
and on a duplicate signup the session key is absent. -/
theorem signup_always_logs_out (db : DB) (sess : Option Nat) (c f : Bool)
    (fU fP fE fI : String) (nid : Nat) :
    (signup db sess c f fU fP fE fI nid).sess =
      if c && f then
        (if db.users.any (fun v => v.username == fU || v.email == fE) then none
         else some nid)
      else none := by
  rcases c <;> rcases f <;> simp [signup]
  split <;> simp

/-- C2 (amended): on an invalid CSRF token every mutating handler except
delete-message performs no state change; logout, follow, stop-follow,
delete-user, like and remove-like respond with an unauthorized status,
while add-message and profile-edit re-present their form (the whole
`FlaskForm` is invalid when its CSRF token is); delete-message, by
contrast, performs no CSRF validation at all and, for any logged-in user
and existing message, deletes the message.  The hypotheses put the
stop-follow conjunct on its CSRF branch (target exists and is followed)
and give delete-message an existing target. -/
theorem csrf_amended (db : DB) (sess : Option Nat) (u v : UserRec)
    (m3 : MessageRec) (fid fid2 mid mid2 mid3 nid now : Nat)
    (text fU fE fB fI fH pw cf cf2 : String) (fo fo2 : Bool)
    (hu : gUser db sess = some u)
    (hv : findUser db fid2 = some v)
    (hf : (u.id, fid2) ∈ db.follows)
    (hm3 : getMessage db mid3 = some m3) :
    logout db sess false =
      { db := db, sess := sess, flashes := [], response := .unauthorized } ∧
    start_following db sess false fid =
      { db := db, sess := sess, flashes := [], response := .unauthorized } ∧
    stop_following db sess false fid2 =
      { db := db, sess := sess, flashes := [], response := .unauthorized } ∧
    delete_user db sess false =
      { db := db, sess := sess, flashes := [], response := .unauthorized } ∧
    like db sess false mid cf =
      { db := db, sess := sess, flashes := [], response := .unauthorized } ∧
    remove_like db sess false mid2 cf2 =
      { db := db, sess := sess, flashes := [], response := .unauthorized } ∧
    add_message db sess false fo text nid now =
      { db := db, sess := sess, flashes := [],
        response := .render "messages/create.html" } ∧
    handle_user_profile_edit db sess false fo2 fU fE fB fI fH pw =
      { db := db, sess := sess, flashes := ["Invalid password"],
        response := .render "users/edit.html" } ∧
    delete_message db sess mid3 =
      { db := { db with messages := db.messages.filter (fun m => m.id != mid3) },
        sess := sess, flashes := [],
        response := .redirect ("/users/" ++ toString u.id) } := by
  refine ⟨?_, ?_, ?_, ?_, ?_, ?_, ?_, ?_, ?_⟩
  · simp [logout]
  · simp [start_following, hu]
  · simp [stop_following, hu, hv, hf]
  · simp [delete_user, hu]
  · simp [like, hu]
  · simp [remove_like, hu]
  · simp [add_message, hu]
  · simp [handle_user_profile_edit, hu]
  · simp [delete_message, hu, hm3]

/-- Database of the witness of claim C2's amended theorem: `ann` (id 1,
logged in) follows `bo` (id 2) and owns message 5. -/
def c2wdb : DB :=
  { users := [⟨1, "ann", hashPw "pw", "ann@x.com", "", "", ""⟩,
              ⟨2, "bo", hashPw "pw2", "bo@x.com", "", "", ""⟩],
    messages := [⟨5, "post", 1, 1⟩],
    follows := [(1, 2)], likes := [] }

theorem csrf_amended_witness :
    (logout c2wdb (some 1) false =
      { db := c2wdb, sess := some 1, flashes := [], response := .unauthorized }) ∧
    (delete_message c2wdb (some 1) 5 =
      { db := { c2wdb with messages := c2wdb.messages.filter (fun m => m.id != 5) },
        sess := some 1, flashes := [],
        response := .redirect ("/users/" ++ toString (1 : Nat)) }) :=
  ⟨(csrf_amended c2wdb (some 1) ⟨1, "ann", hashPw "pw", "ann@x.com", "", "", ""⟩
      ⟨2, "bo", hashPw "pw2", "bo@x.com", "", "", ""⟩ ⟨5, "post", 1, 1⟩
      2 2 5 5 5 9 9 "t" "u" "e" "b" "i" "h" "p" "/" "/" true true
      (by decide) (by decide) (by decide) (by decide)).1,
   (csrf_amended c2wdb (some 1) ⟨1, "ann", hashPw "pw", "ann@x.com", "", "", ""⟩
      ⟨2, "bo", hashPw "pw2", "bo@x.com", "", "", ""⟩ ⟨5, "post", 1, 1⟩
      2 2 5 5 5 9 9 "t" "u" "e" "b" "i" "h" "p" "/" "/" true true
      (by decide) (by decide) (by decide) (by decide)).2.2.2.2.2.2.2.2⟩

/-- C3: the home feed of a logged-in user is sorted by timestamp
descending, holds at most 100 messages, contains only messages of the
user or of users the user follows, and — whenever the whole pool of such
messages fits the cap of 100 — contains every one of them; an anonymous
request shows no messages. -/
theorem homepage_feed_ok (db : DB) (sess : Option Nat) :
    (gUser db sess = none → homepage_messages db sess = []) ∧
    (∀ u, gUser db sess = some u →
      (homepage_messages db sess).Pairwise tsGE ∧
      (homepage_messages db sess).length ≤ 100 ∧
      (∀ m, m ∈ homepage_messages db sess →
        m ∈ db.messages ∧ (m.user_id = u.id ∨ (u.id, m.user_id) ∈ db.follows)) ∧
      ((feed_pool db u.id).length ≤ 100 →
        ∀ m, m ∈ db.messages → (m.user_id = u.id ∨ (u.id, m.user_id) ∈ db.follows) →
          m ∈ homepage_messages db sess)) := by
  constructor
  · intro h
    simp [homepage_messages, h]
  · intro u hu
    have hdef : homepage_messages db sess =
        ((feed_pool db u.id).insertionSort tsGE).take 100 := by
      simp [homepage_messages, hu]
    refine ⟨?_, ?_, ?_, ?_⟩
    · rw [hdef]
      exact (List.sorted_insertionSort tsGE (feed_pool db u.id)).sublist
        (List.take_sublist 100 _)
    · rw [hdef]
      exact List.length_take_le 100 _
    · intro m hm
      rw [hdef] at hm
      have h1 : m ∈ (feed_pool db u.id).insertionSort tsGE :=
        List.take_subset 100 _ hm
      exact mem_feed_pool.mp ((List.mem_insertionSort tsGE).mp h1)
    · intro hlen m hmem hpred
      have hp : m ∈ feed_pool db u.id := mem_feed_pool.mpr ⟨hmem, hpred⟩
      have hlen2 : ((feed_pool db u.id).insertionSort tsGE).length ≤ 100 := by
        rw [List.length_insertionSort]
        exact hlen
      rw [hdef, List.take_of_length_le hlen2]
      exact (List.mem_insertionSort tsGE).mpr hp

/-- Database of the witness of claim C3: `ann` (id 1, logged in) follows
`bo` (id 2); messages by ann, bo and the unfollowed `cy` (id 3). -/
def c3db : DB :=
  { users := [⟨1, "ann", hashPw "pw", "ann@x.com", "", "", ""⟩,
              ⟨2, "bo", hashPw "pw2", "bo@x.com", "", "", ""⟩,
              ⟨3, "cy", hashPw "pw3", "cy@x.com", "", "", ""⟩],
    messages := [⟨5, "old", 1, 1⟩, ⟨6, "new", 9, 2⟩, ⟨7, "hidden", 4, 3⟩],
    follows := [(1, 2)], likes := [] }

theorem homepage_feed_ok_witness :
    homepage_messages c3db none = [] ∧
    (homepage_messages c3db (some 1)).length ≤ 100 ∧
    (⟨6, "new", 9, 2⟩ : MessageRec) ∈ homepage_messages c3db (some 1) :=
  ⟨(homepage_feed_ok c3db none).1 (by decide),
   ((homepage_feed_ok c3db (some 1)).2 ⟨1, "ann", hashPw "pw", "ann@x.com", "", "", ""⟩
      (by decide)).2.1,
   ((homepage_feed_ok c3db (some 1)).2 ⟨1, "ann", hashPw "pw", "ann@x.com", "", "", ""⟩
      (by decide)).2.2.2 (by decide) ⟨6, "new", 9, 2⟩ (by decide) (by decide)⟩

end Warbler
